import Mathlib

/-!
Verification development for the snbl-backend order-payment reconciliation core.

The definitions below are a shallow embedding of:
  * `src/config/shop/models.py` — the `Order` model (fields, `remaining_balance`,
    `is_fully_paid`, `generate_tracking_number`, `update_payment_status`,
    `add_payment`, and the `save` override that assigns a tracking number on
    creation) and the `Payment` model;
  * `src/shop/views.py` — `PaymentViewSet.create` (payment initiation against
    the AzamPay gateway), `PaymentViewSet.webhook`, and
    `PaymentViewSet.AZAMPAY_STATUS_MAPPING`.

Money amounts are modelled as integer cents (the code stores fixed-point
decimals with two fractional digits; within the 10-digit column bounds the
`float(...)` conversions used in the overpayment comparison preserve order
and equality, so exact integer arithmetic is faithful).

The `Payment.phone_number` and `Payment.orderId` fields are used by
`src/shop/views.py` but the `shop/models.py` module of that app is not in the
source tree; those two fields are modelled from the spec (§3: a Payment has a
normalized phone number and a reference to exactly one Order).  Everything
else is translated from the source files named above.
-/

namespace Snbl

/-- Money in cents (fixed-point decimal with 2 fractional digits). -/
abbrev Money := Int

/-- `Payment.STATUS_CHOICES` from `src/config/shop/models.py`. -/
inductive PayStatus
  | PENDING
  | COMPLETED
  | FAILED
  | REFUNDED
deriving DecidableEq, Repr

/-- `Order.PAYMENT_STATUS_CHOICES` from `src/config/shop/models.py`. -/
inductive OrderPaymentStatus
  | UNPAID
  | PARTIALLY_PAID
  | PAID
  | REFUNDED
deriving DecidableEq, Repr

/-- `Order.STATUS_CHOICES` from `src/config/shop/models.py`. -/
inductive OrderStatus
  | PENDING
  | PROCESSING
  | SHIPPED
  | DELIVERED
  | CANCELLED
deriving DecidableEq, Repr

/-- The `Payment` model row.  `amount`, `status`, `transaction_id` are from
`src/config/shop/models.py`.  `phone_number` and `orderId` are modelled from
the spec (§3) because `src/shop/views.py` reads `payment.phone_number` and
`payment.order` / `Payment.objects.get(order_id=...)` from a `shop/models.py`
that is absent from the source tree. -/
structure Payment where
  id : Nat
  amount : Money
  status : PayStatus
  transaction_id : Option String
  phone_number : String
  orderId : Nat
deriving DecidableEq, Repr

/-- The `Order` model row from `src/config/shop/models.py`.  `payments` is the
set of payment ids linked through the `payment` many-to-many relation, kept in
insertion order. -/
structure Order where
  id : Nat
  amount : Money
  amount_paid : Money
  payment_status : OrderPaymentStatus
  status : OrderStatus
  tracking_number : Option String
  payments : List Nat
deriving DecidableEq, Repr

/-- The persistent store: the order table and the payment table. -/
structure State where
  orders : List Order
  payments : List Payment
deriving DecidableEq, Repr

/-- Zero-pad a natural number to a minimum width, the semantics of the Python
format specifier `{n:0wd}` for non-negative `n`. -/
def padZeros (w : Nat) (n : Nat) : String :=
  let s := toString n
  if s.length < w then String.mk (List.replicate (w - s.length) '0') ++ s else s

/-- `Order.generate_tracking_number` (models.py lines 209-214):
returns `f"{prefix}{date}-{order_id:06d}"` where the date is
`datetime.now().strftime('%Y%m%d')`, passed here as the `dateStr` argument.
Note the hyphen between the date and the zero-padded id. -/
def generate_tracking_number (dateStr : String) (order_id : Nat) : String :=
  "SNBL" ++ dateStr ++ "-" ++ padZeros 6 order_id

/-- `Order.remaining_balance` (models.py lines 199-202):
`max(self.amount - self.amount_paid, Decimal('0.00'))`. -/
def remaining_balance (o : Order) : Money :=
  max (o.amount - o.amount_paid) 0

/-- `Order.is_fully_paid` (models.py lines 204-207):
`self.amount_paid >= self.amount`. -/
def is_fully_paid (o : Order) : Bool :=
  decide (o.amount ≤ o.amount_paid)

/-- Python truthiness of the `tracking_number` field: `not self.tracking_number`
is true when the field is NULL or the empty string. -/
def trackingFalsy : Option String → Bool
  | none => true
  | some s => s == ""

/-- `Order.update_payment_status` (models.py lines 216-224): stores PAID when
`amount_paid >= amount`, PARTIALLY_PAID when `amount_paid > 0`, else UNPAID,
then saves the row. -/
def update_payment_status (o : Order) : Order :=
  if o.amount ≤ o.amount_paid then { o with payment_status := OrderPaymentStatus.PAID }
  else if 0 < o.amount_paid then { o with payment_status := OrderPaymentStatus.PARTIALLY_PAID }
  else { o with payment_status := OrderPaymentStatus.UNPAID }

/-- The derivation of the payment status from `amount_paid` and `amount`
(spec §4.1 `derive_payment_status`; identical branch conditions to
`update_payment_status`). -/
def derive_payment_status (o : Order) : OrderPaymentStatus :=
  if o.amount ≤ o.amount_paid then OrderPaymentStatus.PAID
  else if 0 < o.amount_paid then OrderPaymentStatus.PARTIALLY_PAID
  else OrderPaymentStatus.UNPAID

/-- The aggregate `self.payment.aggregate(total=Sum('amount'))['total'] or
Decimal('0.00')` of models.py line 234-235: the sum of the amounts of the
payment rows linked to the order through the many-to-many relation
(0 when the relation is empty). -/
def assocSum (db : List Payment) (ids : List Nat) : Money :=
  ((db.filter (fun p => decide (p.id ∈ ids))).map (fun p => p.amount)).sum

/-- `self.payment.add(payment)`: a many-to-many add is set-like, adding an
already linked row a second time is a no-op. -/
def m2mAdd (ids : List Nat) (pid : Nat) : List Nat :=
  if pid ∈ ids then ids else ids ++ [pid]

/-- `Order.add_payment` (models.py lines 226-241): link the payment, recompute
`amount_paid` from the aggregate over the linked rows, call
`update_payment_status`, and if the order is now fully paid and
`tracking_number` is falsy, assign a freshly generated tracking number. -/
def add_payment (today : String) (db : List Payment) (o : Order) (p : Payment) : Order :=
  let ids := m2mAdd o.payments p.id
  let o1 := update_payment_status { o with payments := ids, amount_paid := assocSum db ids }
  if is_fully_paid o1 && trackingFalsy o1.tracking_number then
    { o1 with tracking_number := some (generate_tracking_number today o1.id) }
  else o1

/-- `Order.save` on a new row (models.py lines 243-252): when the order has no
primary key yet, the row is saved to obtain an id and then
`self.tracking_number = self.generate_tracking_number(self.id)` is assigned
and saved again — the tracking number is set at creation time.  Field
defaults: `amount_paid=0.00`, `payment_status='UNPAID'`, empty many-to-many
relation. -/
def orderCreate (today : String) (oid : Nat) (amount : Money) (stts : OrderStatus) : Order :=
  { id := oid
    amount := amount
    amount_paid := 0
    payment_status := OrderPaymentStatus.UNPAID
    status := stts
    tracking_number := some (generate_tracking_number today oid)
    payments := [] }

/-- Saving an updated order row: replace the row with the same primary key. -/
def replaceOrder (os : List Order) (o : Order) : List Order :=
  os.map (fun x => if x.id == o.id then o else x)

/-- `payment.transaction_id = ...; payment.status = 'COMPLETED'; payment.save()`
(views.py lines 241-243): update the payment row in place. -/
def completePayment (ps : List Payment) (pid : Nat) (txid : Option String) : List Payment :=
  ps.map (fun q =>
    if q.id == pid then { q with transaction_id := txid, status := PayStatus.COMPLETED } else q)

/-- The synchronous result of `self.azampay.mobile_checkout(...)`
(views.py lines 233-238): either a response dict whose `success` key is
truthy or falsy and which may carry a `transactionId`, or a raised exception. -/
inductive GatewayResult
  | resp (ok : Bool) (transactionId : Option String)
  | raises (message : String)
deriving DecidableEq, Repr

/-- True when the gateway call failed synchronously or raised. -/
def GatewayResult.isFailure : GatewayResult → Bool
  | GatewayResult.raises _ => true
  | GatewayResult.resp ok _ => !ok

/-- The response dicts returned by `PaymentViewSet.create`
(views.py lines 215-279). -/
inductive CreateResp
  | created (paymentId : Nat) (paymentAmount : Money) (paymentStatus : PayStatus)
      (orderPaymentStatus : OrderPaymentStatus) (amountPaid : Money)
      (remaining : Money) (tracking : Option String)
  | overpayment (remaining : Money)
  | gatewayFailed
  | exceptionError (message : String)
deriving DecidableEq, Repr

/-- True for every 400 error response of `PaymentViewSet.create`. -/
def CreateResp.isError : CreateResp → Bool
  | CreateResp.created .. => false
  | _ => true

/-- `PaymentViewSet.create` (views.py lines 215-279).

Control flow of the source:
  * fetch the order; a lookup failure raises and is caught by the generic
    handler, which returns a 400 error (no payment exists yet, so nothing is
    deleted);
  * if the requested amount exceeds `order.remaining_balance`, return a 400
    error before any row is written;
  * otherwise create the Payment row with `status='PENDING'`;
  * call the gateway.  If the call raises, the handler deletes the payment
    row and returns a 400 error.  If the response is not successful, the
    payment row is deleted and a 400 error returned.  On success the payment
    row is updated to COMPLETED with the gateway transaction id, and
    `order.add_payment(payment)` reconciles the order. -/
def initiate_payment (today : String) (st : State) (orderPk : Nat) (amount : Money)
    (phone : String) (freshPid : Nat) (gw : GatewayResult) : State × CreateResp :=
  match st.orders.find? (fun o => o.id == orderPk) with
  | none => (st, CreateResp.exceptionError "Order matching query does not exist")
  | some order =>
    if remaining_balance order < amount then
      (st, CreateResp.overpayment (remaining_balance order))
    else
      let pend : Payment :=
        { id := freshPid, amount := amount, status := PayStatus.PENDING,
          transaction_id := none, phone_number := phone, orderId := orderPk }
      let ps1 := st.payments ++ [pend]
      match gw with
      | GatewayResult.raises msg =>
          ({ st with payments := ps1.filter (fun p => p.id != freshPid) },
           CreateResp.exceptionError msg)
      | GatewayResult.resp ok txid =>
        if ok then
          let ps2 := completePayment ps1 freshPid txid
          let done : Payment :=
            { pend with transaction_id := txid, status := PayStatus.COMPLETED }
          let order2 := add_payment today ps2 order done
          ({ orders := replaceOrder st.orders order2, payments := ps2 },
           CreateResp.created freshPid amount done.status order2.payment_status
             order2.amount_paid (remaining_balance order2) order2.tracking_number)
        else
          ({ st with payments := ps1.filter (fun p => p.id != freshPid) },
           CreateResp.gatewayFailed)

/-- `PaymentViewSet.AZAMPAY_STATUS_MAPPING` (views.py lines 199-203). -/
def AZAMPAY_STATUS_MAPPING : List (String × PayStatus) :=
  [("success", PayStatus.COMPLETED), ("failed", PayStatus.FAILED), ("pending", PayStatus.PENDING)]

/-- Python `str.lower()`, modelled character-wise (the mapping keys are plain
ASCII words, for which per-character lowercasing is exact). -/
def pyLower (s : String) : String :=
  String.mk (s.data.map Char.toLower)

/-- Lines 295-296 of views.py: `status_key = transaction_status.lower()` and
`self.AZAMPAY_STATUS_MAPPING.get(status_key, 'PENDING')`. -/
def mapTransactionStatus (s : String) : PayStatus :=
  (AZAMPAY_STATUS_MAPPING.lookup (pyLower s)).getD PayStatus.PENDING

/-- The JSON body of the webhook POST (spec §6): `externalId` and
`transactionStatus`, each possibly missing. -/
structure WebhookReq where
  externalId : Option Nat
  transactionStatus : Option String
deriving DecidableEq, Repr

/-- The response dicts returned by `PaymentViewSet.webhook`: a success dict,
optionally carrying the order payment status, amount paid and tracking
number, or an error dict. -/
inductive WebhookResp
  | success (info : Option (OrderPaymentStatus × Money × Option String))
  | error (message : String)
deriving DecidableEq, Repr

/-- `PaymentViewSet.webhook` (views.py lines 282-317) as the code executes.

The handler reads `order_id = request.data.get('externalId')` and
`transaction_status = request.data.get('transactionStatus')`, then evaluates
`if not order.id or not transaction_status:` (line 288).  The local variable
`order` is only assigned much later (line 304, `order = payment.order`), so
this guard raises UnboundLocalError on every call; the `except Exception`
handler at line 316 catches it and returns a 400 error dict.  No statement
that touches the database is ever reached, so the state is returned
unchanged. -/
def webhook (_today : String) (st : State) (_req : WebhookReq) : State × WebhookResp :=
  (st, WebhookResp.error "local variable order referenced before assignment")

/-- Lines 294-314 of `PaymentViewSet.webhook`: the continuation that the
crashing guard of line 288 makes unreachable, translated faithfully so the
dead code can be analysed.  `Payment.objects.get(order_id=order_id)` raises
unless exactly one payment row references the order id (DoesNotExist or
MultipleObjectsReturned, both caught by the line-316 handler, which returns a
400 error dict and mutates nothing).  When the mapped status is COMPLETED and
the stored payment is not yet COMPLETED, the payment is saved as COMPLETED
and `order.add_payment(payment)` reconciles the order; otherwise the handler
returns a plain success dict without touching state. -/
def webhook_rest (today : String) (st : State) (order_id : Nat)
    (transaction_status : String) : State × WebhookResp :=
  match st.payments.filter (fun p => p.orderId == order_id) with
  | [payment] =>
    let new_status := mapTransactionStatus transaction_status
    if new_status == PayStatus.COMPLETED && payment.status != PayStatus.COMPLETED then
      let p2 := { payment with status := PayStatus.COMPLETED }
      let ps2 := st.payments.map (fun q => if q.id == p2.id then p2 else q)
      match st.orders.find? (fun o => o.id == p2.orderId) with
      | some ord =>
        let ord2 := add_payment today ps2 ord p2
        ({ orders := replaceOrder st.orders ord2, payments := ps2 },
         WebhookResp.success (some (ord2.payment_status, ord2.amount_paid, ord2.tracking_number)))
      | none => ({ st with payments := ps2 }, WebhookResp.error "Order does not exist")
    else (st, WebhookResp.success none)
  | _ => (st, WebhookResp.error "Payment lookup by order id did not return exactly one row")

/-- The reconciliation invariant over a store: every payment linked to an
order is COMPLETED, every linked payment id exists in the payment table,
every order `amount_paid` equals the aggregate over its linked payments, and
every stored `payment_status` equals its derivation. -/
def Inv (st : State) : Prop :=
  (∀ o ∈ st.orders, ∀ p ∈ st.payments, p.id ∈ o.payments → p.status = PayStatus.COMPLETED)
  ∧ (∀ o ∈ st.orders, ∀ pid ∈ o.payments, ∃ p ∈ st.payments, p.id = pid)
  ∧ (∀ o ∈ st.orders, o.amount_paid = assocSum st.payments o.payments)
  ∧ (∀ o ∈ st.orders, o.payment_status = derive_payment_status o)

/-- The states reachable through the reconciliation core on a given day:
starting from an empty store, any sequence of order creations (the serializer
enforces `amount >= 0.01`, i.e. at least one cent), payment initiations
against a fresh payment primary key with an arbitrary gateway outcome, and
webhook deliveries. -/
inductive Reachable (today : String) : State → Prop
  | empty : Reachable today { orders := [], payments := [] }
  | create (st : State) (oid : Nat) (amount : Money) (stts : OrderStatus) :
      Reachable today st → 1 ≤ amount →
      Reachable today { st with orders := st.orders ++ [orderCreate today oid amount stts] }
  | initiate (st : State) (orderPk : Nat) (amount : Money) (phone : String)
      (pid : Nat) (gw : GatewayResult) :
      Reachable today st →
      (∀ p ∈ st.payments, p.id ≠ pid) →
      Reachable today (initiate_payment today st orderPk amount phone pid gw).1
  | hook (st : State) (req : WebhookReq) :
      Reachable today st →
      Reachable today (webhook today st req).1

/-! ### Concrete scenario: the 60/40 split payment of spec §8

An order of 100.00 created on 2026-01-01 receives an applied payment of
60.00 and then one of 40.00, both through `PaymentViewSet.create` with a
successful synchronous gateway response. -/

def sToday : String := "20260101"

def sSt0 : State := { orders := [], payments := [] }

def sSt1 : State :=
  { sSt0 with orders := sSt0.orders ++ [orderCreate sToday 1 10000 OrderStatus.PENDING] }

def sSt2 : State :=
  (initiate_payment sToday sSt1 1 6000 "255711111111" 1 (GatewayResult.resp true (some "TX1"))).1

def sSt3 : State :=
  (initiate_payment sToday sSt2 1 4000 "255711111111" 2 (GatewayResult.resp true (some "TX2"))).1

/-- The stored order row after both payments applied. -/
def sOrd3 : Order :=
  { id := 1
    amount := 10000
    amount_paid := 10000
    payment_status := OrderPaymentStatus.PAID
    status := OrderStatus.PENDING
    tracking_number := some "SNBL20260101-000001"
    payments := [1, 2] }

/-- The second applied payment row (40.00, COMPLETED). -/
def sPay2 : Payment :=
  { id := 2
    amount := 4000
    status := PayStatus.COMPLETED
    transaction_id := some "TX2"
    phone_number := "255711111111"
    orderId := 1 }

/-- Order used by the overpayment and rollback witnesses: 100.00, unpaid. -/
def wOrd : Order :=
  { id := 5
    amount := 10000
    amount_paid := 0
    payment_status := OrderPaymentStatus.UNPAID
    status := OrderStatus.PENDING
    tracking_number := some "SNBL20260101-000005"
    payments := [] }

def wSt : State := { orders := [wOrd], payments := [] }

/-- A CANCELLED order with an open balance of 100.00. -/
def cOrd : Order :=
  { id := 3
    amount := 10000
    amount_paid := 0
    payment_status := OrderPaymentStatus.UNPAID
    status := OrderStatus.CANCELLED
    tracking_number := some "SNBL20260101-000003"
    payments := [] }

def cSt : State := { orders := [cOrd], payments := [] }

/-- Order used by the webhook lookup scenarios. -/
def hOrd : Order :=
  { id := 7
    amount := 5000
    amount_paid := 0
    payment_status := OrderPaymentStatus.UNPAID
    status := OrderStatus.PENDING
    tracking_number := some "SNBL20260101-000007"
    payments := [] }

def hPayA : Payment :=
  { id := 11
    amount := 5000
    status := PayStatus.PENDING
    transaction_id := none
    phone_number := "255722222222"
    orderId := 7 }

def hPayB : Payment :=
  { id := 12
    amount := 1000
    status := PayStatus.PENDING
    transaction_id := none
    phone_number := "255722222222"
    orderId := 7 }

def hStOne : State := { orders := [hOrd], payments := [hPayA] }

def hStZero : State := { orders := [hOrd], payments := [] }

def hStTwo : State := { orders := [hOrd], payments := [hPayA, hPayB] }

/-! ### Helper lemmas about the operations -/

/-- Deleting a payment id that no row carries leaves the table unchanged. -/
theorem filter_ne_id_fresh (ps : List Payment) (pid : Nat) (h : ∀ p ∈ ps, p.id ≠ pid) :
    ps.filter (fun p => p.id != pid) = ps := by
  induction ps with
  | nil => rfl
  | cons a l ih =>
    have ha : (a.id != pid) = true := bne_iff_ne.mpr (h a (List.mem_cons_self a l))
    simp only [List.filter_cons, ha, if_pos]
    rw [ih (fun p hp => h p (List.mem_cons_of_mem a hp))]

/-- `update_payment_status` writes only to the `payment_status` field. -/
theorem update_payment_status_tracking (q : Order) :
    (update_payment_status q).tracking_number = q.tracking_number := by
  unfold update_payment_status
  split_ifs <;> rfl

/-- `update_payment_status` leaves the monetary fields unchanged. -/
theorem update_payment_status_amounts (q : Order) :
    (update_payment_status q).amount = q.amount
    ∧ (update_payment_status q).amount_paid = q.amount_paid
    ∧ (update_payment_status q).payments = q.payments
    ∧ (update_payment_status q).id = q.id
    ∧ (update_payment_status q).status = q.status := by
  unfold update_payment_status
  split_ifs <;> exact ⟨rfl, rfl, rfl, rfl, rfl⟩

/-- The status stored by `update_payment_status` is exactly the derivation of
the resulting row. -/
theorem update_payment_status_derives (q : Order) :
    (update_payment_status q).payment_status
      = derive_payment_status (update_payment_status q) := by
  unfold update_payment_status derive_payment_status
  by_cases h1 : q.amount ≤ q.amount_paid
  · simp [h1]
  · by_cases h2 : 0 < q.amount_paid <;> simp [h1, h2]

/-- The minimum width guarantee of the zero-padding. -/
theorem padZeros_min_length (w n : Nat) : w ≤ (padZeros w n).length := by
  unfold padZeros
  by_cases h : (toString n).length < w
  · rw [if_pos h]
    rw [String.length_append]
    have hrep : (String.mk (List.replicate (w - (toString n).length) '0')).length
        = w - (toString n).length := by
      show (List.replicate (w - (toString n).length) '0').length = w - (toString n).length
      exact List.length_replicate _ _
    omega
  · rw [if_neg h]
    omega


/-! ### Claim theorems -/

/-- C1 counterexample: the claim says `tracking_number` is null from creation
until `payment_status` first becomes PAID, and in the 60.00/40.00 scenario is
null after the first payment.  In the code, `Order.save` assigns the tracking
number when the row is first created, so it is already non-null right after
creation and after the first payment, while the order is still UNPAID
resp. PARTIALLY_PAID. -/
theorem tracking_number_nonnull_after_first_payment :
    ((sSt1.orders.find? (fun o => o.id == 1)).map
        (fun o => (o.tracking_number, o.payment_status)))
      = some (some "SNBL20260101-000001", OrderPaymentStatus.UNPAID)
    ∧ ((sSt2.orders.find? (fun o => o.id == 1)).map
        (fun o => (o.tracking_number, o.payment_status)))
      = some (some "SNBL20260101-000001", OrderPaymentStatus.PARTIALLY_PAID) := by
  decide

/-- C1 (corrected): the tracking number is assigned exactly once, at order
creation by the `is_new` branch of `Order.save`, and is never reassigned or
recomputed afterwards: in the 60.00/40.00 scenario it carries the same value
after creation (UNPAID), after the first payment (PARTIALLY_PAID) and after
the second (PAID); and `add_payment` never overwrites a non-empty tracking
number. -/
theorem tracking_number_assigned_at_creation :
    (((sSt1.orders.find? (fun o => o.id == 1)).map
        (fun o => (o.tracking_number, o.payment_status)))
      = some (some "SNBL20260101-000001", OrderPaymentStatus.UNPAID)
    ∧ ((sSt2.orders.find? (fun o => o.id == 1)).map
        (fun o => (o.tracking_number, o.payment_status)))
      = some (some "SNBL20260101-000001", OrderPaymentStatus.PARTIALLY_PAID)
    ∧ ((sSt3.orders.find? (fun o => o.id == 1)).map
        (fun o => (o.tracking_number, o.payment_status)))
      = some (some "SNBL20260101-000001", OrderPaymentStatus.PAID))
    ∧ ∀ (today : String) (db : List Payment) (o : Order) (p : Payment),
        trackingFalsy o.tracking_number = false →
        (add_payment today db o p).tracking_number = o.tracking_number := by
  refine ⟨by decide, ?_⟩
  intro today db o p h
  simp only [add_payment]
  have hq : (update_payment_status
      { o with payments := m2mAdd o.payments p.id,
               amount_paid := assocSum db (m2mAdd o.payments p.id) }).tracking_number
      = o.tracking_number := update_payment_status_tracking _
  rw [hq, h, Bool.and_false]
  simp [hq]

/-- C1 witness: the preservation part of the theorem applied to the stored
order of the scenario and its second payment. -/
theorem tracking_number_assigned_at_creation_witness :
    trackingFalsy sOrd3.tracking_number = false
    ∧ (add_payment sToday sSt3.payments sOrd3 sPay2).tracking_number
        = sOrd3.tracking_number :=
  ⟨by decide,
   tracking_number_assigned_at_creation.2 sToday sSt3.payments sOrd3 sPay2 (by decide)⟩

/-- C2 (confirmed): a payment-initiation request whose amount strictly
exceeds the order remaining balance is rejected with the overpayment error
response before any mutation: the returned state is exactly the input state,
so no Payment row is retained and `amount_paid`, `payment_status` and
`tracking_number` are untouched. -/
theorem overpayment_rejected_before_mutation
    (today : String) (st : State) (orderPk : Nat) (amount : Money) (phone : String)
    (pid : Nat) (gw : GatewayResult) (ord : Order)
    (hfind : st.orders.find? (fun o => o.id == orderPk) = some ord)
    (hover : remaining_balance ord < amount) :
    initiate_payment today st orderPk amount phone pid gw
      = (st, CreateResp.overpayment (remaining_balance ord)) := by
  unfold initiate_payment
  rw [hfind]
  simp [hover]

/-- C2 witness: requesting 100.01 against an unpaid 100.00 order. -/
theorem overpayment_rejected_before_mutation_witness :
    (wSt.orders.find? (fun o => o.id == 5) = some wOrd
      ∧ remaining_balance wOrd < 10001)
    ∧ initiate_payment sToday wSt 5 10001 "255700000000" 9 (GatewayResult.resp true none)
        = (wSt, CreateResp.overpayment (remaining_balance wOrd)) :=
  ⟨⟨by decide, by decide⟩,
   overpayment_rejected_before_mutation sToday wSt 5 10001 "255700000000" 9
     (GatewayResult.resp true none) wOrd (by decide) (by decide)⟩

/-- C3 (code_bug): replaying the webhook for an already applied COMPLETED
payment does not return success: every webhook call, this one included, hits
the UnboundLocalError at the `not order.id` guard (views.py line 288) and
returns a 400 error dict.  State is unchanged, and at the model level
re-applying the same COMPLETED payment through `Order.add_payment` is a
no-op on the stored row (the many-to-many add deduplicates), so
`amount_paid` indeed changes only once — but the handler never reports
success as the claim requires. -/
theorem webhook_replay_returns_error_not_success :
    webhook sToday sSt3 { externalId := some 1, transactionStatus := some "success" }
      = (sSt3, WebhookResp.error "local variable order referenced before assignment")
    ∧ add_payment sToday sSt3.payments sOrd3 sPay2 = sOrd3
    ∧ sSt3.orders = [sOrd3] :=
  ⟨rfl, by decide, by decide⟩

/-- C6 counterexample: the generated tracking number is not the plain
concatenation `SNBL ++ date ++ zero-padded id` claimed — the code inserts a
hyphen between the date and the id. -/
theorem tracking_number_format_has_hyphen :
    generate_tracking_number "20260101" 42 = "SNBL20260101-000042"
    ∧ generate_tracking_number "20260101" 42
        ≠ "SNBL" ++ "20260101" ++ padZeros 6 42 := by
  decide

/-- C6 (corrected): every generated tracking number is exactly `SNBL`, then
the generation-time date string, then a hyphen, then the order id zero-padded
to at least six digits. -/
theorem tracking_number_format_amended (dateStr : String) (oid : Nat) :
    generate_tracking_number dateStr oid = "SNBL" ++ dateStr ++ "-" ++ padZeros 6 oid
    ∧ 6 ≤ (padZeros 6 oid).length :=
  ⟨rfl, padZeros_min_length 6 oid⟩

/-- C7 (confirmed): the gateway status string is lower-cased and mapped
through the fixed table: it maps to COMPLETED exactly when it is a
case-variant of "success", to FAILED exactly for "failed", and every other
value — "pending" included — maps to PENDING, never to COMPLETED or
FAILED. -/
theorem azampay_status_mapping_total (s : String) :
    (mapTransactionStatus s = PayStatus.COMPLETED ↔ pyLower s = "success")
    ∧ (mapTransactionStatus s = PayStatus.FAILED ↔ pyLower s = "failed")
    ∧ (pyLower s ≠ "success" → pyLower s ≠ "failed" →
        mapTransactionStatus s = PayStatus.PENDING) := by
  unfold mapTransactionStatus AZAMPAY_STATUS_MAPPING
  by_cases h1 : pyLower s = "success"
  · simp [List.lookup, beq_iff_eq, h1]
  · have e1 : (pyLower s == "success") = false := beq_eq_false_iff_ne.mpr h1
    by_cases h2 : pyLower s = "failed"
    · simp [List.lookup, e1, h2, h1]
    · have e2 : (pyLower s == "failed") = false := beq_eq_false_iff_ne.mpr h2
      by_cases h3 : pyLower s = "pending"
      · simp [List.lookup, e1, e2, h3, h1, h2]
      · have e3 : (pyLower s == "pending") = false := beq_eq_false_iff_ne.mpr h3
        simp [List.lookup, e1, e2, e3, h1, h2]

/-- C7 witness: an unrecognized gateway status maps to PENDING. -/
theorem azampay_status_mapping_total_witness :
    (pyLower "Accepted" ≠ "success" ∧ pyLower "Accepted" ≠ "failed")
    ∧ mapTransactionStatus "Accepted" = PayStatus.PENDING :=
  ⟨⟨by decide, by decide⟩,
   (azampay_status_mapping_total "Accepted").2.2 (by decide) (by decide)⟩

/-- C8 (confirmed): when the gateway call raises or returns an unsuccessful
response after the tentative PENDING Payment row was written, the row is
deleted inside the same request, an error response is returned, and the
resulting state equals the input state — no half-created Payment survives
and the order is unchanged. -/
theorem gateway_failure_rolls_back_payment
    (today : String) (st : State) (orderPk : Nat) (amount : Money) (phone : String)
    (pid : Nat) (gw : GatewayResult) (ord : Order)
    (hfind : st.orders.find? (fun o => o.id == orderPk) = some ord)
    (hover : ¬ remaining_balance ord < amount)
    (hfresh : ∀ p ∈ st.payments, p.id ≠ pid)
    (hfail : gw.isFailure = true) :
    (initiate_payment today st orderPk amount phone pid gw).1 = st
    ∧ ((initiate_payment today st orderPk amount phone pid gw).2).isError = true := by
  have hdel : ∀ px : Payment, px.id = pid →
      (st.payments ++ [px]).filter (fun p => p.id != pid) = st.payments := by
    intro px hpx
    rw [List.filter_append, filter_ne_id_fresh st.payments pid hfresh]
    simp [hpx]
  unfold initiate_payment
  rw [hfind]
  cases gw with
  | raises msg =>
    simp only [if_neg hover]
    refine ⟨?_, rfl⟩
    show ({ st with payments := ((st.payments ++ [_]).filter (fun p => p.id != pid)) } : State) = st
    rw [hdel _ rfl]
  | resp ok txid =>
    have hok : ok = false := by
      cases ok
      · rfl
      · simp [GatewayResult.isFailure] at hfail
    subst hok
    simp only [if_neg hover, Bool.false_eq_true, if_false]
    refine ⟨?_, rfl⟩
    show ({ st with payments := ((st.payments ++ [_]).filter (fun p => p.id != pid)) } : State) = st
    rw [hdel _ rfl]

/-- C8 witness: a raising gateway call against the unpaid 100.00 order. -/
theorem gateway_failure_rolls_back_payment_witness :
    (wSt.orders.find? (fun o => o.id == 5) = some wOrd
      ∧ ¬ remaining_balance wOrd < 4000
      ∧ (GatewayResult.raises "connection timed out").isFailure = true)
    ∧ (initiate_payment sToday wSt 5 4000 "255700000000" 9
        (GatewayResult.raises "connection timed out")).1 = wSt
    ∧ ((initiate_payment sToday wSt 5 4000 "255700000000" 9
        (GatewayResult.raises "connection timed out")).2).isError = true :=
  ⟨⟨by decide, by decide, rfl⟩,
   gateway_failure_rolls_back_payment sToday wSt 5 4000 "255700000000" 9
     (GatewayResult.raises "connection timed out") wOrd (by decide) (by decide)
     (by decide) rfl⟩

/-- C9 counterexample: a payment of 50.00 initiated against a CANCELLED order
with open balance succeeds: the response is not an error, a Payment row is
retained, and the order `amount_paid` becomes 50.00 — the workflow status is
never consulted, contradicting the claim that such a request fails with no
Payment created and no state change. -/
theorem cancelled_order_payment_not_rejected :
    cOrd.status = OrderStatus.CANCELLED
    ∧ ((initiate_payment sToday cSt 3 5000 "255733333333" 4
        (GatewayResult.resp true (some "TXC"))).2).isError = false
    ∧ (initiate_payment sToday cSt 3 5000 "255733333333" 4
        (GatewayResult.resp true (some "TXC"))).1.payments ≠ []
    ∧ (((initiate_payment sToday cSt 3 5000 "255733333333" 4
        (GatewayResult.resp true (some "TXC"))).1.orders.find?
          (fun o => o.id == 3)).map Order.amount_paid) = some 5000 := by
  decide

/-- C9 (corrected): `PaymentViewSet.create` validates only the amount against
the remaining balance; the order workflow `status` is never consulted, so a
CANCELLED order with an open balance accepts a new payment: on gateway
success a COMPLETED Payment row is retained and the response is not an
error. -/
theorem initiate_payment_ignores_workflow_status
    (today : String) (st : State) (orderPk : Nat) (amount : Money) (phone : String)
    (pid : Nat) (txid : Option String) (ord : Order)
    (hfind : st.orders.find? (fun o => o.id == orderPk) = some ord)
    (_hcan : ord.status = OrderStatus.CANCELLED)
    (hover : ¬ remaining_balance ord < amount) :
    (∃ p ∈ (initiate_payment today st orderPk amount phone pid
        (GatewayResult.resp true txid)).1.payments,
        p.id = pid ∧ p.status = PayStatus.COMPLETED)
    ∧ ((initiate_payment today st orderPk amount phone pid
        (GatewayResult.resp true txid)).2).isError = false := by
  unfold initiate_payment
  rw [hfind]
  simp only [if_neg hover, if_pos]
  constructor
  · refine ⟨⟨pid, amount, PayStatus.COMPLETED, txid, phone, orderPk⟩, ?_, rfl, rfl⟩
    show _ ∈ completePayment (st.payments ++ [_]) pid txid
    unfold completePayment
    apply List.mem_map.mpr
    refine ⟨⟨pid, amount, PayStatus.PENDING, none, phone, orderPk⟩, ?_, ?_⟩
    · exact List.mem_append_right _ (List.mem_singleton.mpr rfl)
    · simp
  · rfl

/-- C9 witness: the amended theorem applied to the concrete CANCELLED
order. -/
theorem initiate_payment_ignores_workflow_status_witness :
    (cSt.orders.find? (fun o => o.id == 3) = some cOrd
      ∧ cOrd.status = OrderStatus.CANCELLED
      ∧ ¬ remaining_balance cOrd < 5000)
    ∧ ((∃ p ∈ (initiate_payment sToday cSt 3 5000 "255733333333" 4
          (GatewayResult.resp true (some "TXC"))).1.payments,
          p.id = 4 ∧ p.status = PayStatus.COMPLETED)
        ∧ ((initiate_payment sToday cSt 3 5000 "255733333333" 4
          (GatewayResult.resp true (some "TXC"))).2).isError = false) :=
  ⟨⟨by decide, by decide, by decide⟩,
   initiate_payment_ignores_workflow_status sToday cSt 3 5000 "255733333333" 4
     (some "TXC") cOrd (by decide) (by decide) (by decide)⟩

/-- C10 (code_bug): with a state holding exactly one Payment row for order 7
and a well-formed webhook body, the handler returns the UnboundLocalError
dict without ever reaching the `Payment.objects.get(order_id=...)` lookup —
so no call looks up the Payment at all, contrary to the claim.  The
unreachable continuation of lines 294-317, modelled by `webhook_rest`, does
behave as claimed when the lookup matches zero or several rows: a structured
error dict, no mutation, no uncaught exception. -/
theorem webhook_crashes_before_payment_lookup :
    webhook sToday hStOne { externalId := some 7, transactionStatus := some "success" }
      = (hStOne, WebhookResp.error "local variable order referenced before assignment")
    ∧ webhook_rest sToday hStZero 7 "success"
      = (hStZero, WebhookResp.error "Payment lookup by order id did not return exactly one row")
    ∧ webhook_rest sToday hStTwo 7 "success"
      = (hStTwo, WebhookResp.error "Payment lookup by order id did not return exactly one row") :=
  ⟨rfl, by decide, by decide⟩

/-! ### Invariant preservation through the reconciliation operations -/

/-- The empty aggregate is zero. -/
theorem assocSum_nil (db : List Payment) : assocSum db [] = 0 := by
  simp [assocSum]

/-- Appending one payment row adds its amount exactly when it is linked. -/
theorem assocSum_append_single (db : List Payment) (q : Payment) (ids : List Nat) :
    assocSum (db ++ [q]) ids
      = assocSum db ids + (if q.id ∈ ids then q.amount else 0) := by
  unfold assocSum
  rw [List.filter_append, List.map_append, List.sum_append]
  by_cases h : q.id ∈ ids <;> simp [h]

/-- Adding a not-yet-linked id appends it. -/
theorem m2mAdd_not_mem (ids : List Nat) (pid : Nat) (h : pid ∉ ids) :
    m2mAdd ids pid = ids ++ [pid] := by
  unfold m2mAdd
  rw [if_neg h]

/-- Completing a freshly appended payment row rewrites only that row. -/
theorem completePayment_fresh (ps : List Payment) (pend : Payment) (pid : Nat)
    (txid : Option String) (hfresh : ∀ p ∈ ps, p.id ≠ pid) (hpend : pend.id = pid) :
    completePayment (ps ++ [pend]) pid txid
      = ps ++ [{ pend with transaction_id := txid, status := PayStatus.COMPLETED }] := by
  unfold completePayment
  rw [List.map_append]
  congr 1
  · induction ps with
    | nil => rfl
    | cons a l ih =>
      have ha : (a.id == pid) = false :=
        beq_eq_false_iff_ne.mpr (hfresh a (List.mem_cons_self a l))
      simp only [List.map_cons, ha, Bool.false_eq_true, if_false]
      rw [ih (fun p hp => hfresh p (List.mem_cons_of_mem a hp))]
  · simp [hpend]

/-- The row produced by `add_payment`: linked ids, recomputed aggregate,
unchanged total, and a stored status equal to its own derivation. -/
theorem add_payment_spec (today : String) (db : List Payment) (o : Order) (p : Payment) :
    (add_payment today db o p).payments = m2mAdd o.payments p.id
    ∧ (add_payment today db o p).amount_paid = assocSum db (m2mAdd o.payments p.id)
    ∧ (add_payment today db o p).amount = o.amount
    ∧ (add_payment today db o p).payment_status
        = derive_payment_status (add_payment today db o p) := by
  simp only [add_payment]
  have h1 := update_payment_status_amounts
    { o with payments := m2mAdd o.payments p.id,
             amount_paid := assocSum db (m2mAdd o.payments p.id) }
  have h2 := update_payment_status_derives
    { o with payments := m2mAdd o.payments p.id,
             amount_paid := assocSum db (m2mAdd o.payments p.id) }
  by_cases hc : (is_fully_paid (update_payment_status
      { o with payments := m2mAdd o.payments p.id,
               amount_paid := assocSum db (m2mAdd o.payments p.id) })
      && trackingFalsy (update_payment_status
      { o with payments := m2mAdd o.payments p.id,
               amount_paid := assocSum db (m2mAdd o.payments p.id) }).tracking_number) = true
  · rw [if_pos hc]
    exact ⟨h1.2.2.1, h1.2.1, h1.1, h2⟩
  · rw [if_neg hc]
    exact ⟨h1.2.2.1, h1.2.1, h1.1, h2⟩

/-- A freshly created order derives to UNPAID (the serializer guarantees the
order amount is at least one cent). -/
theorem derive_unpaid (o : Order) (h0 : o.amount_paid = 0) (h1 : 1 ≤ o.amount) :
    derive_payment_status o = OrderPaymentStatus.UNPAID := by
  unfold derive_payment_status
  have hx : ¬ o.amount ≤ o.amount_paid := by
    intro hle
    rw [h0] at hle
    exact absurd (le_trans h1 hle) (by norm_num)
  have hy : ¬ (0 : Money) < o.amount_paid := by
    rw [h0]
    exact lt_irrefl 0
  rw [if_neg hx, if_neg hy]

/-- Creating an order preserves the invariant. -/
theorem inv_create (today : String) (st : State) (oid : Nat) (amount : Money)
    (stts : OrderStatus) (hamt : 1 ≤ amount) (hinv : Inv st) :
    Inv { st with orders := st.orders ++ [orderCreate today oid amount stts] } := by
  obtain ⟨hA, hB, hC, hD⟩ := hinv
  refine ⟨?_, ?_, ?_, ?_⟩
  · intro o ho p hp hmem
    rcases List.mem_append.mp ho with ho | ho
    · exact hA o ho p hp hmem
    · rw [List.mem_singleton.mp ho] at hmem
      simp [orderCreate] at hmem
  · intro o ho pid hmem
    rcases List.mem_append.mp ho with ho | ho
    · exact hB o ho pid hmem
    · rw [List.mem_singleton.mp ho] at hmem
      simp [orderCreate] at hmem
  · intro o ho
    rcases List.mem_append.mp ho with ho | ho
    · exact hC o ho
    · rw [List.mem_singleton.mp ho]
      simp [orderCreate, assocSum_nil]
  · intro o ho
    rcases List.mem_append.mp ho with ho | ho
    · exact hD o ho
    · rw [List.mem_singleton.mp ho]
      rw [derive_unpaid _ rfl hamt]
      rfl

/-- Applying a COMPLETED payment with a fresh primary key through
`add_payment` preserves the invariant: the reconciled order satisfies it by
construction, and every other order is untouched because the fresh id cannot
be linked to it. -/
theorem inv_apply_completed (today : String) (st : State) (ord : Order) (done : Payment)
    (hmem_ord : ord ∈ st.orders)
    (hdone : done.status = PayStatus.COMPLETED)
    (hfresh : ∀ p ∈ st.payments, p.id ≠ done.id)
    (hinv : Inv st) :
    Inv { orders := replaceOrder st.orders (add_payment today (st.payments ++ [done]) ord done),
          payments := st.payments ++ [done] } := by
  obtain ⟨hA, hB, hC, hD⟩ := hinv
  have hnin : ∀ x ∈ st.orders, done.id ∉ x.payments := by
    intro x hx hmem
    obtain ⟨q, hq, hqe⟩ := hB x hx done.id hmem
    exact hfresh q hq hqe
  have hspec := add_payment_spec today (st.payments ++ [done]) ord done
  have hids : m2mAdd ord.payments done.id = ord.payments ++ [done.id] :=
    m2mAdd_not_mem _ _ (hnin ord hmem_ord)
  have hcases : ∀ o, o ∈ replaceOrder st.orders
      (add_payment today (st.payments ++ [done]) ord done) →
      o = add_payment today (st.payments ++ [done]) ord done ∨ o ∈ st.orders := by
    intro o ho
    simp only [replaceOrder] at ho
    obtain ⟨x, hx, hxe⟩ := List.mem_map.mp ho
    by_cases hxid : (x.id == (add_payment today (st.payments ++ [done]) ord done).id) = true
    · left
      rw [← hxe, if_pos hxid]
    · right
      rw [← hxe, if_neg hxid]
      exact hx
  refine ⟨?_, ?_, ?_, ?_⟩
  · intro o ho p hp hpm
    rcases List.mem_append.mp hp with hp' | hp'
    · rcases hcases o ho with rfl | ho'
      · rw [hspec.1, hids] at hpm
        rcases List.mem_append.mp hpm with hm | hm
        · exact hA ord hmem_ord p hp' hm
        · exact absurd (List.mem_singleton.mp hm) (hfresh p hp')
      · exact hA o ho' p hp' hpm
    · rw [List.mem_singleton.mp hp']
      exact hdone
  · intro o ho pid' hpm
    rcases hcases o ho with rfl | ho'
    · rw [hspec.1, hids] at hpm
      rcases List.mem_append.mp hpm with hm | hm
      · obtain ⟨q, hq, hqe⟩ := hB ord hmem_ord pid' hm
        exact ⟨q, List.mem_append_left _ hq, hqe⟩
      · exact ⟨done, List.mem_append_right _ (List.mem_singleton.mpr rfl),
          (List.mem_singleton.mp hm).symm⟩
    · obtain ⟨q, hq, hqe⟩ := hB o ho' pid' hpm
      exact ⟨q, List.mem_append_left _ hq, hqe⟩
  · intro o ho
    rcases hcases o ho with rfl | ho'
    · rw [hspec.2.1, hspec.1]
    · rw [assocSum_append_single, if_neg (hnin o ho'), add_zero]
      exact hC o ho'
  · intro o ho
    rcases hcases o ho with rfl | ho'
    · exact hspec.2.2.2
    · exact hD o ho'

/-- `PaymentViewSet.create` preserves the invariant for every gateway
outcome. -/
theorem inv_initiate (today : String) (st : State) (orderPk : Nat) (amount : Money)
    (phone : String) (pid : Nat) (gw : GatewayResult)
    (hfresh : ∀ p ∈ st.payments, p.id ≠ pid) (hinv : Inv st) :
    Inv (initiate_payment today st orderPk amount phone pid gw).1 := by
  unfold initiate_payment
  cases hfind : st.orders.find? (fun o => o.id == orderPk) with
  | none => exact hinv
  | some ord =>
    by_cases hover : remaining_balance ord < amount
    · simp only [if_pos hover]
      exact hinv
    · simp only [if_neg hover]
      have hdel : ∀ px : Payment, px.id = pid →
          (st.payments ++ [px]).filter (fun p => p.id != pid) = st.payments := by
        intro px hpx
        rw [List.filter_append, filter_ne_id_fresh st.payments pid hfresh]
        simp [hpx]
      have hmem_ord : ord ∈ st.orders := List.mem_of_find?_eq_some hfind
      cases gw with
      | raises msg =>
        rw [hdel _ rfl]
        exact hinv
      | resp ok txid =>
        cases ok with
        | false =>
          simp only [Bool.false_eq_true, if_false]
          rw [hdel _ rfl]
          exact hinv
        | true =>
          simp only [if_pos]
          rw [completePayment_fresh st.payments _ pid txid hfresh rfl]
          exact inv_apply_completed today st ord _ hmem_ord rfl hfresh hinv

/-- Every reachable store satisfies the reconciliation invariant. -/
theorem reachable_inv (today : String) (st : State) (h : Reachable today st) : Inv st := by
  induction h with
  | empty =>
    refine ⟨?_, ?_, ?_, ?_⟩ <;> intro o ho <;> simp at ho
  | create st oid amount stts _ hamt ih => exact inv_create today st oid amount stts hamt ih
  | initiate st orderPk amount phone pid gw _ hfresh ih =>
    exact inv_initiate today st orderPk amount phone pid gw hfresh ih
  | hook st req _ ih => exact ih

/-- The 60/40 scenario is reachable through the core operations. -/
theorem sSt3_reachable : Reachable sToday sSt3 :=
  Reachable.initiate sSt2 1 4000 "255711111111" 2 (GatewayResult.resp true (some "TX2"))
    (Reachable.initiate sSt1 1 6000 "255711111111" 1 (GatewayResult.resp true (some "TX1"))
      (Reachable.create sSt0 1 10000 OrderStatus.PENDING Reachable.empty (by decide))
      (by decide))
    (by decide)

/-- C4 (confirmed): in every state reachable through the reconciliation core
(order creation, payment initiation with any gateway outcome, webhook
delivery), every stored order `payment_status` equals the derivation from
`amount_paid` and `amount`: PAID when `amount_paid >= amount`,
PARTIALLY_PAID when `0 < amount_paid < amount`, UNPAID otherwise. -/
theorem payment_status_matches_derivation (today : String) (st : State)
    (h : Reachable today st) (o : Order) (ho : o ∈ st.orders) :
    o.payment_status = derive_payment_status o :=
  (reachable_inv today st h).2.2.2 o ho

/-- C4 witness: the fully paid order of the 60/40 scenario. -/
theorem payment_status_matches_derivation_witness :
    (sOrd3 ∈ sSt3.orders) ∧ sOrd3.payment_status = derive_payment_status sOrd3 :=
  ⟨by decide,
   payment_status_matches_derivation sToday sSt3 sSt3_reachable sOrd3 (by decide)⟩

/-- C5 (confirmed): in every reachable state, every stored order
`amount_paid` equals the sum of the amounts of exactly those payment rows
that are linked to the order and have status COMPLETED, and no PENDING or
FAILED payment row is ever linked (so such payments are never counted). -/
theorem amount_paid_equals_completed_sum (today : String) (st : State)
    (h : Reachable today st) (o : Order) (ho : o ∈ st.orders) :
    o.amount_paid
      = ((st.payments.filter (fun p =>
          decide (p.id ∈ o.payments) && (p.status == PayStatus.COMPLETED))).map
            (fun p => p.amount)).sum
    ∧ ∀ p ∈ st.payments,
        (p.status = PayStatus.PENDING ∨ p.status = PayStatus.FAILED) →
        p.id ∉ o.payments := by
  obtain ⟨hA, hB, hC, hD⟩ := reachable_inv today st h
  constructor
  · rw [hC o ho]
    unfold assocSum
    congr 1
    congr 1
    apply List.filter_congr
    intro p hp
    by_cases hm : p.id ∈ o.payments
    · have hcpl := hA o ho p hp hm
      simp [hm, hcpl]
    · simp [hm]
  · intro p hp hstat hmem
    have hcpl := hA o ho p hp hmem
    rcases hstat with h1 | h1 <;> rw [h1] at hcpl <;> exact PayStatus.noConfusion hcpl

/-- C5 witness: the fully paid order of the 60/40 scenario against its two
COMPLETED payment rows. -/
theorem amount_paid_equals_completed_sum_witness :
    (sOrd3 ∈ sSt3.orders)
    ∧ (sOrd3.amount_paid
        = ((sSt3.payments.filter (fun p =>
            decide (p.id ∈ sOrd3.payments) && (p.status == PayStatus.COMPLETED))).map
              (fun p => p.amount)).sum
      ∧ ∀ p ∈ sSt3.payments,
          (p.status = PayStatus.PENDING ∨ p.status = PayStatus.FAILED) →
          p.id ∉ sOrd3.payments) :=
  ⟨by decide,
   amount_paid_equals_completed_sum sToday sSt3 sSt3_reachable sOrd3 (by decide)⟩

end Snbl
